import Mathlib

/-!
Shallow embedding of the ingestion / change-detection core of the
`property_tracker` repository (files `database.py` and `tracker.py`).

Modelling conventions
---------------------
* Timestamps are natural numbers (one tick = one day).  Python stores ISO
  strings produced by `datetime.utcnow()` and SQLite compares them
  lexicographically / via `julianday`; at day granularity the integer
  `days_on_market = CAST(julianday(now) - julianday(first_seen) AS INTEGER)`
  is exactly `now - first_seen`.
* A Python dict field is a `DVal`: the key may be absent (`missing`, so that
  `d[k]` raises `KeyError` and a named SQL parameter `:k` raises
  `sqlite3.ProgrammingError`), present with value `None` (`null`), or present
  with a value (`val`).
* A raised Python exception is `Except.error`; `db_connection` commits on
  success and rolls back the whole transaction on any exception, which the
  embedding renders by returning the *original* database on `Except.error`.
* The SQLite tables `listings` and `price_history` are lists of rows;
  `price_history.id` is the AUTOINCREMENT counter `DB.nextId`.
-/

namespace PropertyTracker

/-- A Python dict entry: key absent, key present with `None`, or a value. -/
inductive DVal (α : Type) where
  | missing : DVal α
  | null : DVal α
  | val : α → DVal α
deriving DecidableEq, Repr

/-- The Python exceptions the modelled code can raise. -/
inductive PyErr where
  | keyError : String → PyErr
  | progError : String → PyErr
  | integrityError : PyErr
  | typeError : PyErr
deriving DecidableEq, Repr

/-- `d[k]`: raises `KeyError` when the key is absent, else yields the value
(`none` standing for Python `None`). -/
def pyIdx {α : Type} (v : DVal α) (k : String) : Except PyErr (Option α) :=
  match v with
  | .missing => .error (.keyError k)
  | .null => .ok none
  | .val a => .ok (some a)

/-- `d.get(k)`: `None` when the key is absent or null. -/
def pyGet {α : Type} (v : DVal α) : Option α :=
  match v with
  | .missing => none
  | .null => none
  | .val a => some a

/-- Binding a named SQL parameter `:k`: `sqlite3.ProgrammingError` when the
key is absent from the parameter dict. -/
def requireKey {α : Type} (v : DVal α) (k : String) : Except PyErr (Option α) :=
  match v with
  | .missing => .error (.progError k)
  | .null => .ok none
  | .val a => .ok (some a)

/-- An inbound listing record (a plain Python dict), as consumed by
`upsert_listing`.  The ten keys are the ones the SQL statements mention. -/
structure Rec where
  listing_id : DVal String
  address : DVal String
  price : DVal Int
  bedrooms : DVal Int
  bathrooms : DVal Int
  property_type : DVal String
  tenure : DVal String
  area : DVal String
  listing_url : DVal String
  listing_date : DVal String
deriving DecidableEq, Repr

/-- The `listings.status` column. -/
inductive Status where
  | active : Status
  | removed : Status
deriving DecidableEq, Repr

/-- One row of the `listings` table. -/
structure Row where
  listing_id : String
  address : String
  price : Int
  bedrooms : Option Int
  bathrooms : Option Int
  property_type : Option String
  tenure : Option String
  area : Option String
  listing_url : Option String
  listing_date : Option String
  first_seen : Nat
  last_seen : Nat
  status : Status
  watchlist : Bool
deriving DecidableEq, Repr

/-- One row of the append-only `price_history` table. -/
structure PH where
  id : Nat
  listing_id : String
  price : Int
  recorded_at : Nat
deriving DecidableEq, Repr

/-- The SQLite database state. -/
structure DB where
  listings : List Row
  history : List PH
  nextId : Nat
deriving DecidableEq, Repr

/-- The freshly initialised (empty) database. -/
def emptyDB : DB := ⟨[], [], 0⟩

/-- A value stored in the result dict built by `upsert_listing`: either a
bool (`is_new`) or an optional `(old_price, new_price)` pair. -/
inductive RVal where
  | b : Bool → RVal
  | pr : Option (Int × Int) → RVal
deriving DecidableEq, Repr

/-- The dict returned by `upsert_listing`
(`{'is_new': _, 'price_drop': _, 'price_rise': _}`). -/
abbrev ResDict := List (String × RVal)

/-- Dict subscripting on an upsert result: `KeyError` when absent. -/
def dictGet (d : ResDict) (k : String) : Except PyErr RVal :=
  match List.lookup k d with
  | some v => .ok v
  | none => .error (.keyError k)

/-- Python truthiness of a result-dict value (`False` and `None` are falsy). -/
def truthy : RVal → Bool
  | .b x => x
  | .pr o => o.isSome

/-- Tuple unpacking `old, new = v`: `TypeError` unless `v` is a pair. -/
def unpackPair : RVal → Except PyErr (Int × Int)
  | .pr (some p) => .ok p
  | .pr none => .error .typeError
  | .b _ => .error .typeError

/-- The `SELECT listing_id, price FROM listings WHERE listing_id = ?` lookup
at the top of `upsert_listing` (a SQL `=` against NULL matches nothing). -/
def lookupExisting (db : DB) (lid : Option String) : Option Row :=
  db.listings.find? (fun r => lid == some r.listing_id)

/-- The INSERT of a new listing row (database.py lines 121-133): every named
parameter must be bound (key present in the dict, else
`sqlite3.ProgrammingError`), and the NOT NULL columns `listing_id`,
`address`, `price` reject a null value (`sqlite3.IntegrityError`). -/
def insertNewRow (rec : Rec) (now : Nat) : Except PyErr Row := do
  let lid ← requireKey rec.listing_id "listing_id"
  let addr ← requireKey rec.address "address"
  let p ← requireKey rec.price "price"
  let bed ← requireKey rec.bedrooms "bedrooms"
  let bath ← requireKey rec.bathrooms "bathrooms"
  let ptype ← requireKey rec.property_type "property_type"
  let ten ← requireKey rec.tenure "tenure"
  let ar ← requireKey rec.area "area"
  let url ← requireKey rec.listing_url "listing_url"
  let ldate ← requireKey rec.listing_date "listing_date"
  match lid, addr, p with
  | some lid, some addr, some p =>
      .ok { listing_id := lid, address := addr, price := p, bedrooms := bed,
            bathrooms := bath, property_type := ptype, tenure := ten,
            area := ar, listing_url := url, listing_date := ldate,
            first_seen := now, last_seen := now, status := .active,
            watchlist := false }
  | _, _, _ => .error .integrityError

/-- `database.upsert_listing` (lines 100-182).  Insert a new listing or
update an existing one; returns the result dict
`{'is_new': _, 'price_drop': _, 'price_rise': _}`.  On the update path the
UPDATE statement sets `price`, `address`, `last_seen`, `status='active'`,
`bedrooms`, `bathrooms`, `property_type`, `tenure` and `listing_url` — and
nothing else (in particular neither `area`, `listing_date` nor
`first_seen`).  A raised exception rolls the whole transaction back, hence
the original `db` is simply not replaced on `Except.error`. -/
def upsert_listing (db : DB) (rec : Rec) (now : Nat) :
    Except PyErr (DB × ResDict) := do
  let lid ← pyIdx rec.listing_id "listing_id"
  match lookupExisting db lid with
  | none => do
      let row ← insertNewRow rec now
      let ph : PH := ⟨db.nextId, row.listing_id, row.price, now⟩
      .ok ({ listings := db.listings ++ [row],
             history := db.history ++ [ph],
             nextId := db.nextId + 1 },
           [("is_new", .b true), ("price_drop", .pr none),
            ("price_rise", .pr none)])
  | some ex => do
      let old := ex.price
      let np? ← pyIdx rec.price "price"
      match np? with
      | none =>
          -- Python: `None != old_price` is True, so the code INSERTs a NULL
          -- price into the NOT NULL `price_history.price` column.
          .error .integrityError
      | some np => do
          let db1 : DB :=
            if np != old then
              { db with history := db.history ++ [⟨db.nextId, ex.listing_id, np, now⟩],
                         nextId := db.nextId + 1 }
            else db
          let res : ResDict :=
            [("is_new", .b false),
             ("price_drop", .pr (if np < old then some (old, np) else none)),
             ("price_rise", .pr (if old < np then some (old, np) else none))]
          let addr? ← pyIdx rec.address "address"
          match addr? with
          | none => .error .integrityError
          | some addr =>
              let upd : Row → Row := fun r =>
                if r.listing_id == ex.listing_id then
                  { r with price := np, address := addr, last_seen := now,
                           status := .active,
                           bedrooms := pyGet rec.bedrooms,
                           bathrooms := pyGet rec.bathrooms,
                           property_type := pyGet rec.property_type,
                           tenure := pyGet rec.tenure,
                           listing_url := pyGet rec.listing_url }
                else r
              .ok ({ db1 with listings := db1.listings.map upd }, res)

/-- `database.mark_removed` (lines 185-205): read the currently active ids,
subtract the ids seen this cycle, and flip the difference to
`status='removed'`, bumping `last_seen`.  The function body contains no
`return` statement, so Python returns `None` — captured separately by
`mark_removed_ret`.  The `ids_seen` set may contain Python `None` (when a
record's `listing_id` key was present but null), hence `Option String`. -/
def mark_removed (db : DB) (seen : List (Option String)) (now : Nat) : DB :=
  let active_ids := (db.listings.filter (fun r => r.status == .active)).map
    (fun r => r.listing_id)
  let to_remove := active_ids.filter (fun i => !seen.contains (some i))
  { db with listings := db.listings.map (fun r =>
      if to_remove.contains r.listing_id then
        { r with status := .removed, last_seen := now }
      else r) }

/-- The value `mark_removed` returns to its caller: the function has no
`return` statement, so it is Python `None` (not a list of rows). -/
def mark_removed_ret : Option (List Row) := none

/-- The first (minimum `id`) price-history entry, i.e. the SQL
`WHERE id IN (SELECT MIN(id) FROM price_history GROUP BY listing_id)`. -/
def minIdEntry : List PH → Option PH
  | [] => none
  | e :: es =>
      match minIdEntry es with
      | none => some e
      | some m => if e.id ≤ m.id then some e else some m

/-- `initial_price` for a listing: the price of its lowest-`id` history
entry (NULL when the listing has no history, via the LEFT JOIN). -/
def initialPrice (db : DB) (lid : String) : Option Int :=
  (minIdEntry (db.history.filter (fun e => e.listing_id == lid))).map
    (fun e => e.price)

/-- A row of the `get_stale_listings` result set: the listing columns plus
the computed `initial_price` and `days_on_market` columns. -/
structure StaleRow where
  row : Row
  initial_price : Option Int
  days_on_market : Int
deriving DecidableEq, Repr

/-- The ORDER BY relation of `get_stale_listings`: `first_seen` ascending. -/
def byFirstSeen (a b : Row) : Prop := a.first_seen ≤ b.first_seen

instance : DecidableRel byFirstSeen := fun a b => Nat.decLe a.first_seen b.first_seen

instance : IsTotal Row byFirstSeen := ⟨fun a b => Nat.le_total a.first_seen b.first_seen⟩

instance : IsTrans Row byFirstSeen := ⟨fun _ _ _ => Nat.le_trans⟩

/-- The WHERE clause of `get_stale_listings`: active, current price equal to
the COALESCEd initial price, and at least `min_days` days on market. -/
def staleCond (db : DB) (now : Nat) (min_days : Int) (l : Row) : Bool :=
  l.status == .active
    && l.price == ((initialPrice db l.listing_id).getD l.price)
    && decide (min_days ≤ (now : Int) - (l.first_seen : Int))

/-- `database.get_stale_listings` (lines 280-307): active listings whose
current price equals their initial ledger price (COALESCE covers an empty
ledger) and whose integral `days_on_market` is at least `min_days`, ordered
by `first_seen` ascending.  A pure read. -/
def get_stale_listings (db : DB) (now : Nat) (min_days : Int) : List StaleRow :=
  ((db.listings.filter (staleCond db now min_days)).insertionSort byFirstSeen).map
    (fun l => ⟨l, initialPrice db l.listing_id, (now : Int) - (l.first_seen : Int)⟩)

/-- `config.PRICE_DROP_THRESHOLD` (config.py line 40). -/
def PRICE_DROP_THRESHOLD : Int := 0

/-- The mutable state of the `for listing in scraped` loop in
`tracker.process_listings`: the database, the `ids_seen` set (a Python set,
modelled as an insertion-ordered duplicate-free list; it may contain `None`)
and the three classification lists. -/
structure Acc where
  db : DB
  ids : List (Option String)
  newL : List Rec
  drops : List (Rec × Int × Int)
  rises : List (Rec × Int × Int)
deriving DecidableEq, Repr

/-- `set.add`: append unless already present. -/
def setAdd (l : List (Option String)) (x : Option String) : List (Option String) :=
  if x ∈ l then l else l ++ [x]

/-- One iteration of the tracker loop (tracker.py lines 45-88) for one
scraped record, parameterised by the upsert function `U` (Python resolves
`upsert_listing` by name; the parameter also lets theorems quantify over
transient storage failures).  `listing["listing_id"]` is evaluated *before*
the `try`, so a missing `listing_id` key propagates; only the `upsert`
call itself is guarded.  The classification branches re-index
`listing["address"]` / `listing["price"]` for logging (a missing key
raises `KeyError`, and `f"{None:,}"` raises `TypeError`), and the
`elif result["price_increase"]` lookup raises `KeyError` whenever the
result dict lacks that key. -/
def step (U : DB → Rec → Except PyErr (DB × ResDict)) (acc : Acc) (rec : Rec) :
    Except PyErr Acc := do
  let lid ← pyIdx rec.listing_id "listing_id"
  let acc1 := { acc with ids := setAdd acc.ids lid }
  match U acc1.db rec with
  | .error _ =>
      -- `except Exception: logger.error(...); continue`
      .ok acc1
  | .ok (db1, res) => do
      let acc2 := { acc1 with db := db1 }
      let isNewV ← dictGet res "is_new"
      if truthy isNewV then do
        -- logging: listing["address"], f"{listing['price']:,}"
        let _ ← pyIdx rec.address "address"
        let p? ← pyIdx rec.price "price"
        match p? with
        | none => .error .typeError
        | some _ => .ok { acc2 with newL := acc2.newL ++ [rec] }
      else do
        let dropV ← dictGet res "price_drop"
        if truthy dropV then do
          let (o, n) ← unpackPair dropV
          if PRICE_DROP_THRESHOLD ≤ o - n then do
            let _ ← pyIdx rec.address "address"
            .ok { acc2 with drops := acc2.drops ++ [(rec, o, n)] }
          else .ok acc2
        else do
          let incV ← dictGet res "price_increase"
          if truthy incV then do
            let (o, n) ← unpackPair incV
            let _ ← pyIdx rec.address "address"
            .ok { acc2 with rises := acc2.rises ++ [(rec, o, n)] }
          else .ok acc2

/-- The whole `for listing in scraped` loop. -/
def processLoop (U : DB → Rec → Except PyErr (DB × ResDict)) :
    Acc → List Rec → Except PyErr Acc
  | acc, [] => .ok acc
  | acc, rec :: rest => do
      let acc' ← step U acc rec
      processLoop U acc' rest

/-- Tracker.py lines 91-105: `removed_raw = mark_removed(ids_seen)` followed
by `for lst in removed_raw: ... lst["days_on_market"] = (now - first).days`.
When the returned value is `None` the `for` statement raises `TypeError`,
which the surrounding `try` catches at line 104, leaving the list empty;
were a list returned, each row would gain `days_on_market = now - first_seen`
(`None` on a parse failure, which the `Nat` timestamp model cannot produce). -/
def removedFromRet (ret : Option (List Row)) (now : Nat) : List (Row × Option Int) :=
  match ret with
  | none => []
  | some rows => rows.map (fun r => (r, some ((now : Int) - (r.first_seen : Int))))

/-- A value of the report dict `process_listings` returns. -/
inductive RepVal where
  | recs : List Rec → RepVal
  | trips : List (Rec × Int × Int) → RepVal
  | rows : List (Row × Option Int) → RepVal
  | num : Nat → RepVal
deriving DecidableEq, Repr

/-- The report dict (tracker.py lines 116-122). -/
abbrev Report := List (String × RepVal)

/-- The dict literal of tracker.py lines 116-122. -/
def buildReport (acc : Acc) (removed : List (Row × Option Int)) : Report :=
  [("new", .recs acc.newL),
   ("price_drops", .trips acc.drops),
   ("price_increases", .trips acc.rises),
   ("removed", .rows removed),
   ("total_seen", .num acc.ids.length)]

/-- `tracker.process_listings` (lines 23-122), parameterised by the upsert
function used for each record.  An uncaught exception inside the loop
propagates to the caller (`main.py` then aborts the run); the `Except.error`
result elides the already-committed per-record writes, which no theorem
below inspects. -/
def process_listings_with (U : DB → Rec → Except PyErr (DB × ResDict))
    (db : DB) (scraped : List Rec) (now : Nat) :
    Except PyErr (DB × Report) := do
  let acc ← processLoop U ⟨db, [], [], [], []⟩ scraped
  let db2 := mark_removed acc.db acc.ids now
  let removed := removedFromRet mark_removed_ret now
  .ok (db2, buildReport acc removed)

/-- `tracker.process_listings` with the real `database.upsert_listing`
(every call in one run shares the clock value `now`). -/
def process_listings (db : DB) (scraped : List Rec) (now : Nat) :
    Except PyErr (DB × Report) :=
  process_listings_with (fun d r => upsert_listing d r now) db scraped now

/-!
Concrete sample data used by counterexamples and witnesses.
-/

/-- A complete scraped record (all ten keys present): id `"1"`, price
1000000, address `"1 Test Rd"`, area `"Wandsworth"`, optional fields null. -/
def rFull : Rec :=
  ⟨.val "1", .val "1 Test Rd", .val 1000000, .null, .null, .null, .null,
   .val "Wandsworth", .null, .null⟩

/-- The same record with the price reduced to 950000. -/
def rDrop : Rec := { rFull with price := .val 950000 }

/-- A record carrying only the three required keys
`listing_id`, `address`, `price`. -/
def rMin : Rec :=
  ⟨.val "1", .val "1 Test Rd", .val 1000000, .missing, .missing, .missing,
   .missing, .missing, .missing, .missing⟩

/-- A record whose `listing_id` key is absent. -/
def rNoId : Rec :=
  ⟨.missing, .val "x", .val 5, .null, .null, .null, .null, .null, .null, .null⟩

/-- A record with `listing_id` present but `address` absent (its upsert
fails at the named-parameter binding of the INSERT). -/
def rNoAddr : Rec :=
  ⟨.val "9", .missing, .val 5, .null, .null, .null, .null, .null, .null, .null⟩

/-- The database after upserting `rFull` into an empty store at time 0. -/
def db_after_first : DB :=
  match upsert_listing emptyDB rFull 0 with
  | .ok p => p.1
  | .error _ => emptyDB

/-- A stored active listing row with the given id, price and `first_seen`. -/
def sampleRow (lid : String) (p : Int) (fs : Nat) : Row :=
  ⟨lid, "addr", p, none, none, none, none, some "W", none, none, fs, fs,
   .active, false⟩

/-- A store holding three active listings `A`, `B`, `C`, each with one seed
ledger entry at price 100. -/
def dbABC : DB :=
  ⟨[sampleRow "A" 100 0, sampleRow "B" 100 0, sampleRow "C" 100 0],
   [⟨0, "A", 100, 0⟩, ⟨1, "B", 100, 0⟩, ⟨2, "C", 100, 0⟩], 3⟩

/-- A complete scraped record with the given id and price. -/
def recOf (lid : String) (p : Int) : Rec :=
  ⟨.val lid, .val "addr", .val p, .null, .null, .null, .null, .val "W",
   .null, .null⟩

/-- A store holding one active listing whose ledger is 100 → 90 → 100: its
price changed twice but returned to the initial value. -/
def dbStale : DB :=
  ⟨[sampleRow "1" 100 0],
   [⟨0, "1", 100, 0⟩, ⟨1, "1", 90, 1⟩, ⟨2, "1", 100, 2⟩], 3⟩

/-- An upsert function that always fails with a (transient) storage error. -/
def failU : DB → Rec → Except PyErr (DB × ResDict) :=
  fun _ _ => .error .integrityError

/-- The loop state after running `processLoop failU` over `batch8`. -/
def out8 : Acc := ⟨emptyDB, [some "1", some "2"], [], [], []⟩

/-- A batch observing ids `"1"` (twice) and `"2"`. -/
def batch8 : List Rec := [rFull, recOf "2" 50, rDrop]

/-- `rFull` relabeled to the search scope `"Lambeth"`. -/
def rArea2 : Rec := { rFull with area := .val "Lambeth" }

/-- The database after upserting the relabeled record into
`db_after_first`. -/
def dbArea : DB :=
  match upsert_listing db_after_first rArea2 1 with
  | .ok p => p.1
  | .error _ => emptyDB

/-- The result dict of that relabeling upsert. -/
def resArea : ResDict :=
  match upsert_listing db_after_first rArea2 1 with
  | .ok p => p.2
  | .error _ => []

/-- A store holding one `removed` listing `"1"` (price 100, seen at 0). -/
def dbRem : DB :=
  ⟨[{ sampleRow "1" 100 0 with status := .removed }], [⟨0, "1", 100, 0⟩], 1⟩

/-- The store after listing `"1"` reappears (same price) at time 9. -/
def dbRem2 : DB :=
  match upsert_listing dbRem (recOf "1" 100) 9 with
  | .ok p => p.1
  | .error _ => emptyDB

/-- The result dict of that re-listing upsert. -/
def resRem : ResDict :=
  match upsert_listing dbRem (recOf "1" 100) 9 with
  | .ok p => p.2
  | .error _ => []

/-!
Theorems settling the claims.
-/

/-- C1: calling `upsert_listing` twice with an identical record is indeed a
no-op the second time (`is_new` false, no new ledger entry), but re-running
`process_listings` with the same single-record batch does **not** return
normally: the tracker reads `result["price_increase"]` while the upsert
result dict only has the key `price_rise`, so the second run raises
`KeyError('price_increase')` instead of producing an empty classification. -/
theorem upsert_idempotent_but_second_process_run_fails :
    (upsert_listing db_after_first rFull 1).map
        (fun p => (p.1.history, dictGet p.2 "is_new")) =
      .ok (db_after_first.history, .ok (.b false))
    ∧ process_listings db_after_first [rFull] 1 =
      .error (.keyError "price_increase") := by
  constructor <;> rfl

/-- C2: with stored active ids `{A,B,C}` and a cycle seeing only `{A,C}`,
`mark_removed` flips exactly `B` to `removed` and bumps its `last_seen`,
but it returns `None` (no snapshots), and the classifier's `removed` list
in the report is therefore empty rather than containing `B`'s snapshot. -/
theorem mark_removed_flips_but_returns_no_snapshots :
    ((mark_removed dbABC [some "A", some "C"] 5).listings.map
        (fun r => (r.listing_id, r.status, r.last_seen)) =
      [("A", .active, 0), ("B", .removed, 5), ("C", .active, 0)])
    ∧ mark_removed_ret = none
    ∧ (process_listings dbABC [recOf "A" 90, recOf "C" 90] 5).map
        (fun p => (List.lookup "removed" p.2,
                   p.1.listings.map (fun r => (r.listing_id, r.status)))) =
      .ok (some (.rows []),
           [("A", .active), ("B", .removed), ("C", .active)]) := by
  refine ⟨by rfl, rfl, by rfl⟩

/-- C3 (counterexample): the report returned by `process_listings` has
exactly the keys `new`, `price_drops`, `price_increases`, `removed` and
`total_seen`; it contains no `stale` or `newly_stale` entry, and the stale
query is never consulted (`get_stale_listings` has no caller in the
repository). -/
theorem report_has_no_stale_key :
    (process_listings emptyDB [rFull] 0).map
        (fun p => (p.2.map Prod.fst, List.lookup "stale" p.2,
                   List.lookup "newly_stale" p.2)) =
      .ok (["new", "price_drops", "price_increases", "removed", "total_seen"],
           none, none) := by
  rfl

/-- C4 (counterexample): a batch containing a record whose `listing_id` key
is missing aborts: `listing["listing_id"]` is evaluated before the guarded
upsert call, so `process_listings` raises `KeyError('listing_id')` instead
of skipping the record. -/
theorem missing_listing_id_aborts_batch :
    process_listings emptyDB [rNoId] 0 = .error (.keyError "listing_id") := by
  rfl

/-- C5 (counterexample): `process_listings` does not deduplicate the batch.
For the batch `[rFull, rDrop]` (the same `listing_id` twice, the second at
a lower price) on an empty store, the id is classified as new **and**
appears in `price_drops` in the same report (and both records were
upserted: the ledger holds two entries). -/
theorem duplicate_id_in_new_and_price_drops :
    rDrop.listing_id = rFull.listing_id
    ∧ (process_listings emptyDB [rFull, rDrop] 0).map
        (fun p => (List.lookup "new" p.2, List.lookup "price_drops" p.2,
                   List.lookup "total_seen" p.2, p.1.history.length)) =
      .ok (some (.recs [rFull]), some (.trips [(rDrop, 1000000, 950000)]),
           some (.num 1), 2) := by
  refine ⟨rfl, by rfl⟩

/-- C5 (amended): `process_listings` performs no deduplication — it upserts
the batch in order, so a listing id occurring twice with a lower second
price is reported both in `new` (first record) and in `price_drops`
(second record, old/new prices) of the same report, while `total_seen`
still counts distinct ids (here 1).  This holds at every clock value. -/
theorem no_dedup_duplicate_id_classified_twice (now : Nat) :
    (process_listings emptyDB [rFull, rDrop] now).map
        (fun p => (List.lookup "new" p.2, List.lookup "price_drops" p.2,
                   List.lookup "total_seen" p.2)) =
      .ok (some (.recs [rFull]), some (.trips [(rDrop, 1000000, 950000)]),
           some (.num 1)) := by
  rfl

/-- Binding a present key yields its `.get` value. -/
theorem requireKey_ne_missing {α : Type} (v : DVal α) (k : String)
    (h : v ≠ .missing) : requireKey v k = .ok (pyGet v) := by
  cases v with
  | missing => exact absurd rfl h
  | null => rfl
  | val a => rfl

/-- C4 (amended): a record whose `listing_id` key is present but whose
upsert raises is skipped with a logged reason — the loop records the id in
`ids_seen` and continues with the remaining records; only a record missing
`listing_id` itself (see the counterexample) aborts the batch, because that
access happens before the guarded upsert call. -/
theorem failed_upsert_skipped_and_loop_continues
    (U : DB → Rec → Except PyErr (DB × ResDict)) (acc : Acc) (rec : Rec)
    (rest : List Rec) (lid : Option String) (e : PyErr)
    (hlid : pyIdx rec.listing_id "listing_id" = .ok lid)
    (hU : U acc.db rec = .error e) :
    processLoop U acc (rec :: rest) =
      processLoop U { acc with ids := setAdd acc.ids lid } rest := by
  have hstep : step U acc rec = .ok { acc with ids := setAdd acc.ids lid } := by
    unfold step
    rw [hlid]
    simp only [Bind.bind, Except.bind]
    rw [show ({ acc with ids := setAdd acc.ids lid } : Acc).db = acc.db from rfl, hU]
  show (do
      let acc' ← step U acc rec
      processLoop U acc' rest) =
    processLoop U { acc with ids := setAdd acc.ids lid } rest
  rw [hstep]
  rfl

/-- Witness for the C4 amended theorem: on an empty store, the record
`rNoAddr` (id present, `address` key absent) makes `upsert_listing` raise
`ProgrammingError('address')`, and the loop swallows the error, keeps the
id and continues. -/
theorem failed_upsert_skipped_and_loop_continues_witness :
    processLoop (fun d r => upsert_listing d r 0) ⟨emptyDB, [], [], [], []⟩
        [rNoAddr] = .ok ⟨emptyDB, [some "9"], [], [], []⟩ :=
  failed_upsert_skipped_and_loop_continues
    (fun d r => upsert_listing d r 0) ⟨emptyDB, [], [], [], []⟩ rNoAddr []
    (some "9") (.progError "address") rfl rfl

/-- C6 (counterexample): upserting an already-stored listing with a new
`area` label (`Lambeth`) leaves the stored `area` at its original value
(`Wandsworth`): the UPDATE statement of `upsert_listing` does not set the
`area` column, so the later write does **not** win. -/
theorem area_not_relabeled_on_update :
    (upsert_listing db_after_first { rFull with area := .val "Lambeth" } 1).map
        (fun p => p.1.listings.map (fun r => r.area)) =
      .ok [some "Wandsworth"] := by
  rfl

/-- C7 (counterexample): upserting a previously-unseen record that carries
only the three required keys `listing_id`, `address`, `price` raises
`sqlite3.ProgrammingError` (the INSERT's named parameter `:bedrooms` is
unbound) instead of inserting a row with `is_new = true`. -/
theorem minimal_record_insert_raises :
    upsert_listing emptyDB rMin 0 = .error (.progError "bedrooms") := by
  rfl

/-- Closed form of `upsert_listing` on the update path: when the incoming
record's `listing_id` resolves to a stored row `ex` and its `price` and
`address` are present values, the upsert succeeds, appends one ledger entry
iff the price changed, and maps the UPDATE over the rows. -/
theorem upsert_existing_eq
    (db : DB) (rec : Rec) (now : Nat) (lid : Option String) (ex : Row)
    (np : Int) (addr : String)
    (hlid : pyIdx rec.listing_id "listing_id" = .ok lid)
    (hex : lookupExisting db lid = some ex)
    (hp : pyIdx rec.price "price" = .ok (some np))
    (ha : pyIdx rec.address "address" = .ok (some addr)) :
    upsert_listing db rec now =
      .ok ({ listings := db.listings.map (fun r =>
               if r.listing_id == ex.listing_id then
                 { r with price := np, address := addr, last_seen := now,
                          status := .active, bedrooms := pyGet rec.bedrooms,
                          bathrooms := pyGet rec.bathrooms,
                          property_type := pyGet rec.property_type,
                          tenure := pyGet rec.tenure,
                          listing_url := pyGet rec.listing_url }
               else r),
             history := db.history ++
               (if np != ex.price then [⟨db.nextId, ex.listing_id, np, now⟩]
                else []),
             nextId := if np != ex.price then db.nextId + 1 else db.nextId },
           [("is_new", .b false),
            ("price_drop", .pr (if np < ex.price then some (ex.price, np)
                                else none)),
            ("price_rise", .pr (if ex.price < np then some (ex.price, np)
                                else none))]) := by
  unfold upsert_listing
  rw [hlid]
  simp only [Bind.bind, Except.bind]
  rw [hex, hp, ha]
  by_cases hc : (np != ex.price) = true
  · simp only [hc, if_true]
  · simp only [Bool.not_eq_true] at hc
    simp only [hc, Bool.false_eq_true, if_false, List.append_nil]

/-- C6 (amended): for every upsert of an already-stored listing, the stored
`area` field is left unchanged — the incoming record's `area` is ignored on
the update path (the UPDATE statement does not set the column), so the
first write wins, not the last. -/
theorem update_preserves_area
    (db : DB) (rec : Rec) (now : Nat) (lid : Option String) (ex : Row)
    (np : Int) (addr : String) (db2 : DB) (res : ResDict)
    (hlid : pyIdx rec.listing_id "listing_id" = .ok lid)
    (hex : lookupExisting db lid = some ex)
    (hp : pyIdx rec.price "price" = .ok (some np))
    (ha : pyIdx rec.address "address" = .ok (some addr))
    (hok : upsert_listing db rec now = .ok (db2, res)) :
    db2.listings.map (fun r => r.area) = db.listings.map (fun r => r.area) := by
  rw [upsert_existing_eq db rec now lid ex np addr hlid hex hp ha] at hok
  injection hok with h1
  injection h1 with h2 h3
  subst h2
  dsimp only
  rw [List.map_map]
  apply List.map_congr_left
  intro r _
  by_cases h : (r.listing_id == ex.listing_id) = true <;>
    simp [Function.comp, h]

/-- Witness for the C6 amended theorem: relabeling listing `"1"` from
`Wandsworth` to `Lambeth` leaves the stored areas untouched. -/
theorem update_preserves_area_witness :
    dbArea.listings.map (fun r => r.area) =
      db_after_first.listings.map (fun r => r.area) :=
  update_preserves_area db_after_first rArea2 1 (some "1")
    ⟨"1", "1 Test Rd", 1000000, none, none, none, none, some "Wandsworth",
     none, none, 0, 0, .active, false⟩ 1000000 "1 Test Rd" dbArea resArea rfl
    (by rfl) rfl rfl (by rfl)

/-- C7 (amended): upsert of a previously unseen id succeeds — inserting one
active listing row with `first_seen = last_seen = now`, the optional
attributes null exactly when the record carries null, plus one seed ledger
entry, and reporting `is_new = true` — provided the record carries keys for
**all ten** listing attributes (the optional ones may be null); as the
counterexample shows, a record carrying only the three required keys
instead raises a binding error. -/
theorem full_key_insert_succeeds
    (db : DB) (rec : Rec) (now : Nat) (lid addr : String) (p : Int)
    (h1 : rec.listing_id = .val lid) (h2 : rec.address = .val addr)
    (h3 : rec.price = .val p)
    (h4 : rec.bedrooms ≠ .missing) (h5 : rec.bathrooms ≠ .missing)
    (h6 : rec.property_type ≠ .missing) (h7 : rec.tenure ≠ .missing)
    (h8 : rec.area ≠ .missing) (h9 : rec.listing_url ≠ .missing)
    (h10 : rec.listing_date ≠ .missing)
    (hnew : lookupExisting db (some lid) = none) :
    upsert_listing db rec now =
      .ok ({ listings := db.listings ++
               [⟨lid, addr, p, pyGet rec.bedrooms, pyGet rec.bathrooms,
                 pyGet rec.property_type, pyGet rec.tenure, pyGet rec.area,
                 pyGet rec.listing_url, pyGet rec.listing_date,
                 now, now, .active, false⟩],
             history := db.history ++ [⟨db.nextId, lid, p, now⟩],
             nextId := db.nextId + 1 },
           [("is_new", .b true), ("price_drop", .pr none),
            ("price_rise", .pr none)]) := by
  have k1 : requireKey rec.listing_id "listing_id" = .ok (some lid) := by
    rw [h1]; rfl
  have k2 : requireKey rec.address "address" = .ok (some addr) := by
    rw [h2]; rfl
  have k3 : requireKey rec.price "price" = .ok (some p) := by
    rw [h3]; rfl
  unfold upsert_listing
  rw [h1]
  simp only [pyIdx, Bind.bind, Except.bind]
  rw [hnew]
  unfold insertNewRow
  simp only [k1, k2, k3, Bind.bind, Except.bind,
    requireKey_ne_missing _ _ h4, requireKey_ne_missing _ _ h5,
    requireKey_ne_missing _ _ h6, requireKey_ne_missing _ _ h7,
    requireKey_ne_missing _ _ h8, requireKey_ne_missing _ _ h9,
    requireKey_ne_missing _ _ h10]

/-- Witness for the C7 amended theorem: `rFull` (all ten keys present,
optional ones null) inserts cleanly into the empty store. -/
theorem full_key_insert_succeeds_witness :
    upsert_listing emptyDB rFull 0 =
      .ok (db_after_first,
           [("is_new", .b true), ("price_drop", .pr none),
            ("price_rise", .pr none)]) :=
  full_key_insert_succeeds emptyDB rFull 0 "1" "1 Test Rd" 1000000 rfl rfl rfl
    (by decide) (by decide) (by decide) (by decide) (by decide) (by decide)
    (by decide) rfl

/-- Membership in the `ids_seen` set after an `add`. -/
theorem mem_setAdd (l : List (Option String)) (x y : Option String) :
    y ∈ setAdd l x ↔ y ∈ l ∨ y = x := by
  unfold setAdd
  split
  · next h =>
      constructor
      · exact Or.inl
      · rintro (hy | rfl)
        · exact hy
        · exact h
  · simp [List.mem_append]

/-- A successful loop iteration extends `ids_seen` by exactly the record's
`listing_id` (whatever the upsert outcome and classification branch). -/
theorem step_ids {U : DB → Rec → Except PyErr (DB × ResDict)} {acc : Acc}
    {rec : Rec} {acc' : Acc} (h : step U acc rec = .ok acc') :
    ∃ lid, pyIdx rec.listing_id "listing_id" = .ok lid
      ∧ acc'.ids = setAdd acc.ids lid := by
  unfold step at h
  simp only [Bind.bind, Except.bind] at h
  cases hl : pyIdx rec.listing_id "listing_id" with
  | error e =>
      rw [hl] at h
      simp at h
  | ok lid =>
      rw [hl] at h
      dsimp only at h
      refine ⟨lid, rfl, ?_⟩
      repeat' split at h
      all_goals first
        | (injection h with h2; subst h2; rfl)
        | simp at h

/-- The `ids_seen` set accumulated by a successful run of the tracker loop
contains an id iff it was already present or some record of the batch
carries it (a failed upsert does not exclude a record's id). -/
theorem processLoop_ids {U : DB → Rec → Except PyErr (DB × ResDict)} :
    ∀ {batch : List Rec} {acc out : Acc},
      processLoop U acc batch = .ok out →
      ∀ x, x ∈ out.ids ↔ x ∈ acc.ids
        ∨ ∃ rec ∈ batch, pyIdx rec.listing_id "listing_id" = .ok x
  | [], acc, out, h, x => by
      unfold processLoop at h
      injection h with h2
      subst h2
      simp
  | rec :: rest, acc, out, h, x => by
      unfold processLoop at h
      simp only [Bind.bind, Except.bind] at h
      cases hs : step U acc rec with
      | error e =>
          rw [hs] at h
          simp at h
      | ok acc1 =>
          rw [hs] at h
          dsimp only at h
          obtain ⟨lid, hlid, hids⟩ := step_ids hs
          have ih := processLoop_ids (U := U) h x
          rw [ih, hids, mem_setAdd, List.exists_mem_cons_iff, hlid]
          simp only [Except.ok.injEq]
          constructor
          · rintro ((hy | rfl) | ⟨r, hr, hpr⟩)
            · exact Or.inl hy
            · exact Or.inr (Or.inl rfl)
            · exact Or.inr (Or.inr ⟨r, hr, hpr⟩)
          · rintro (hy | (rfl | ⟨r, hr, hpr⟩))
            · exact Or.inl (Or.inl hy)
            · exact Or.inl (Or.inr rfl)
            · exact Or.inr ⟨r, hr, hpr⟩

/-- C8: whenever the per-record loop completes (for an arbitrary upsert
function `U`, so in particular whatever records failed their upsert with a
transient write error), `process_listings_with` passes the accumulated
`ids_seen` set — and exactly that set — to `mark_removed`, and that set
holds precisely the `listing_id` values carried by the records of the
batch, failed upserts included. -/
theorem mark_removed_receives_all_observed_ids
    (U : DB → Rec → Except PyErr (DB × ResDict)) (db : DB) (batch : List Rec)
    (now : Nat) (out : Acc)
    (h : processLoop U ⟨db, [], [], [], []⟩ batch = .ok out) :
    process_listings_with U db batch now =
      .ok (mark_removed out.db out.ids now,
           buildReport out (removedFromRet mark_removed_ret now))
    ∧ ∀ x, x ∈ out.ids ↔
        ∃ rec ∈ batch, pyIdx rec.listing_id "listing_id" = .ok x := by
  constructor
  · unfold process_listings_with
    simp only [Bind.bind, Except.bind]
    rw [h]
  · intro x
    have hmem := processLoop_ids (U := U) h x
    simpa using hmem

/-- Witness for C8: a batch observing ids `"1"`, `"2"`, `"1"` while every
single upsert fails still hands `mark_removed` the set `{"1", "2"}`. -/
theorem mark_removed_receives_all_observed_ids_witness :
    process_listings_with failU emptyDB batch8 7 =
      .ok (mark_removed out8.db out8.ids 7,
           buildReport out8 (removedFromRet mark_removed_ret 7))
    ∧ ∀ x, x ∈ out8.ids ↔
        ∃ rec ∈ batch8, pyIdx rec.listing_id "listing_id" = .ok x :=
  mark_removed_receives_all_observed_ids failU emptyDB batch8 7 out8 (by rfl)

/-- C3 (amended): for every completed run, the report returned by the
classifier carries exactly the keys `new`, `price_drops`,
`price_increases`, `removed` and `total_seen` — no `stale` or
`newly_stale` entry exists and no stale query is consulted — and
`total_seen` is the size of the deduplicated `ids_seen` set. -/
theorem report_keys_and_total_seen
    (U : DB → Rec → Except PyErr (DB × ResDict)) (db : DB) (batch : List Rec)
    (now : Nat) (out : Acc)
    (h : processLoop U ⟨db, [], [], [], []⟩ batch = .ok out) :
    ∃ rep, process_listings_with U db batch now =
        .ok (mark_removed out.db out.ids now, rep)
      ∧ rep.map Prod.fst =
          ["new", "price_drops", "price_increases", "removed", "total_seen"]
      ∧ List.lookup "stale" rep = none
      ∧ List.lookup "newly_stale" rep = none
      ∧ List.lookup "total_seen" rep = some (.num out.ids.length) := by
  refine ⟨buildReport out (removedFromRet mark_removed_ret now),
    ?_, rfl, rfl, rfl, rfl⟩
  unfold process_listings_with
  simp only [Bind.bind, Except.bind]
  rw [h]

/-- Witness for the C3 amended theorem at a concrete failing batch. -/
theorem report_keys_and_total_seen_witness :
    ∃ rep, process_listings_with failU emptyDB batch8 7 =
        .ok (mark_removed out8.db out8.ids 7, rep)
      ∧ rep.map Prod.fst =
          ["new", "price_drops", "price_increases", "removed", "total_seen"]
      ∧ List.lookup "stale" rep = none
      ∧ List.lookup "newly_stale" rep = none
      ∧ List.lookup "total_seen" rep = some (.num out8.ids.length) :=
  report_keys_and_total_seen failU emptyDB batch8 7 out8 (by rfl)

/-- C9: when a stored listing (in particular a `removed` one) reappears in
a later batch, the upsert flips its status back to `active` while leaving
every `first_seen` value untouched (the UPDATE never writes that column),
keeping the set of rows fixed, and only ever appending to the price ledger:
the old history is an initial segment of the new one, and when the price is
unchanged the ledger is exactly unchanged. -/
theorem relist_preserves_first_seen_and_ledger
    (db : DB) (rec : Rec) (now : Nat) (lid : String) (ex : Row)
    (np : Int) (addr : String) (db2 : DB) (res : ResDict)
    (hlid : pyIdx rec.listing_id "listing_id" = .ok (some lid))
    (hex : lookupExisting db (some lid) = some ex)
    (_hrm : ex.status = .removed)
    (hp : pyIdx rec.price "price" = .ok (some np))
    (ha : pyIdx rec.address "address" = .ok (some addr))
    (hok : upsert_listing db rec now = .ok (db2, res)) :
    db2.listings.map (fun r => r.first_seen) =
      db.listings.map (fun r => r.first_seen)
    ∧ db2.listings.map (fun r => r.listing_id) =
      db.listings.map (fun r => r.listing_id)
    ∧ (db2.listings.filter (fun r => r.listing_id == ex.listing_id)).all
        (fun r => r.status == .active) = true
    ∧ (∃ t, db2.history = db.history ++ t)
    ∧ (np = ex.price → db2.history = db.history) := by
  rw [upsert_existing_eq db rec now (some lid) ex np addr hlid hex hp ha] at hok
  injection hok with h1
  injection h1 with h2 h3
  subst h2
  dsimp only
  refine ⟨?_, ?_, ?_, ⟨_, rfl⟩, ?_⟩
  · rw [List.map_map]
    apply List.map_congr_left
    intro r _
    by_cases h : (r.listing_id == ex.listing_id) = true <;>
      simp [Function.comp, h]
  · rw [List.map_map]
    apply List.map_congr_left
    intro r _
    by_cases h : (r.listing_id == ex.listing_id) = true <;>
      simp [Function.comp, h]
  · rw [List.all_eq_true]
    intro r hr
    rw [List.mem_filter] at hr
    obtain ⟨hmem, hid⟩ := hr
    rw [List.mem_map] at hmem
    obtain ⟨r0, _, hupd⟩ := hmem
    by_cases h : (r0.listing_id == ex.listing_id) = true
    · rw [← hupd]
      simp [h]
    · rw [← hupd] at hid
      simp [h] at hid
  · intro heq
    subst heq
    simp

/-- Witness for C9: the removed listing `"1"` of `dbRem` reappears at the
same price; its status flips back, `first_seen` and the ledger stay as
they were. -/
theorem relist_preserves_first_seen_and_ledger_witness :
    dbRem2.listings.map (fun r => r.first_seen) =
      dbRem.listings.map (fun r => r.first_seen)
    ∧ dbRem2.listings.map (fun r => r.listing_id) =
      dbRem.listings.map (fun r => r.listing_id)
    ∧ (dbRem2.listings.filter (fun r => r.listing_id == "1")).all
        (fun r => r.status == .active) = true
    ∧ (∃ t, dbRem2.history = dbRem.history ++ t)
    ∧ ((100 : Int) = 100 → dbRem2.history = dbRem.history) :=
  relist_preserves_first_seen_and_ledger dbRem (recOf "1" 100) 9 "1"
    { sampleRow "1" 100 0 with status := .removed } 100 "addr" dbRem2 resRem
    rfl (by rfl) rfl rfl rfl (by rfl)

/-- C10 (counterexample): a 61-day-old active listing whose ledger is
100 → 90 → 100 (its price changed, then returned to the initial value)
**is** returned by `get_stale_listings 60`, because the query only compares
the current price with the initial ledger price. -/
theorem price_round_trip_listing_is_stale :
    dbStale.history.map (fun e => e.price) = [100, 90, 100]
    ∧ get_stale_listings dbStale 61 60 =
      [⟨sampleRow "1" 100 0, some 100, 61⟩] := by
  refine ⟨rfl, by rfl⟩

/-- C10 (amended): `get_stale_listings` is a pure query returning, ordered
by `first_seen` ascending (oldest first), exactly the active listings whose
**current** price equals their ledger's initial price (an empty ledger
passes via COALESCE) and whose age `now - first_seen` is at least
`min_days`, each row carrying its `initial_price` and `days_on_market`
columns; a listing whose price changed but returned to the initial value
therefore does appear (see the counterexample). -/
theorem stale_membership_and_order (db : DB) (now : Nat) (d : Int) :
    (∀ s, s ∈ get_stale_listings db now d ↔
        (s.row ∈ db.listings ∧ s.row.status = .active
          ∧ s.row.price = (initialPrice db s.row.listing_id).getD s.row.price
          ∧ d ≤ (now : Int) - (s.row.first_seen : Int)
          ∧ s.initial_price = initialPrice db s.row.listing_id
          ∧ s.days_on_market = (now : Int) - (s.row.first_seen : Int)))
    ∧ List.Sorted (fun a b : StaleRow => a.row.first_seen ≤ b.row.first_seen)
        (get_stale_listings db now d) := by
  constructor
  · intro s
    unfold get_stale_listings
    rw [List.mem_map]
    constructor
    · rintro ⟨l, hl, rfl⟩
      rw [(List.perm_insertionSort byFirstSeen _).mem_iff, List.mem_filter] at hl
      obtain ⟨hmem, hcond⟩ := hl
      unfold staleCond at hcond
      simp only [Bool.and_eq_true, beq_iff_eq, decide_eq_true_eq] at hcond
      exact ⟨hmem, hcond.1.1, hcond.1.2, hcond.2, rfl, rfl⟩
    · rintro ⟨hmem, hst, hpr, hage, hip, hdm⟩
      refine ⟨s.row, ?_, ?_⟩
      · rw [(List.perm_insertionSort byFirstSeen _).mem_iff, List.mem_filter]
        refine ⟨hmem, ?_⟩
        unfold staleCond
        simp only [Bool.and_eq_true, beq_iff_eq, decide_eq_true_eq]
        exact ⟨⟨hst, hpr⟩, hage⟩
      · obtain ⟨r, ip, dm⟩ := s
        dsimp only at hip hdm ⊢
        rw [hip, hdm]
  · have hs := List.sorted_insertionSort byFirstSeen
      (db.listings.filter (staleCond db now d))
    unfold get_stale_listings
    exact List.Pairwise.map _ (fun a b hab => hab) hs

end PropertyTracker
